import Mathlib

/-!
Verification development for the k8s-net-attach-def-controller repository.

The Go sources under pkg/controller (controller.go, utils.go) are shallowly
embedded below.  Strings are modelled by Lean `String` (operating on the
underlying character list); Go's `strings.Split` with a one-rune separator,
`strings.TrimSpace` (on the ASCII whitespace actually occurring in the
annotation values), and the label regular expression
`^[a-z0-9]([-a-z0-9]*[a-z0-9])?$` are given executable definitions.
External collaborators (encoding/json decoding, the live API, the informer
caches, podutil.FindPort) are environment parameters: the controller's own
logic is translated literally, the collaborators stay abstract oracles.
-/

namespace NadCtrl

/-- Go `strings.Split` on a single-rune separator, worker over character
lists; `acc` is the reversed current field. -/
def splitOnAux (sep : Char) : List Char → List Char → List (List Char)
  | [], acc => [acc.reverse]
  | c :: cs, acc =>
    if c = sep then acc.reverse :: splitOnAux sep cs []
    else splitOnAux sep cs (c :: acc)

/-- Go `strings.Split(s, sep)` for a one-rune separator. -/
def splitOnChar (sep : Char) (cs : List Char) : List (List Char) :=
  splitOnAux sep cs []

/-- The whitespace runes relevant to annotation values (ASCII subset of the
Unicode class used by Go `strings.TrimSpace`). -/
def isSpaceChar (c : Char) : Bool :=
  c = ' ' || c = '\t' || c = '\n' || c = '\r'

/-- Go `strings.TrimSpace` on a character list. -/
def trimChars (cs : List Char) : List Char :=
  ((cs.dropWhile isSpaceChar).reverse.dropWhile isSpaceChar).reverse

/-- Character class `[a-z0-9]` of the label pattern. -/
def isLowerAlnum (c : Char) : Bool :=
  ('a' ≤ c && c ≤ 'z') || ('0' ≤ c && c ≤ '9')

/-- Matches `([-a-z0-9]*[a-z0-9])?` : empty, or dashes/alphanumerics ending
in an alphanumeric. -/
def validTail : List Char → Bool
  | [] => true
  | [c] => isLowerAlnum c
  | c :: cs => (isLowerAlnum c || c = '-') && validTail cs

/-- The regular expression `^[a-z0-9]([-a-z0-9]*[a-z0-9])?$` compiled in
utils.go (validNameRegex). -/
def validName (s : String) : Bool :=
  match s.data with
  | [] => false
  | c :: cs => isLowerAlnum c && validTail cs

/-- multus types.NetworkSelectionElement (the fields used here). -/
structure NetworkSelectionElement where
  Namespace : String
  Name : String
  InterfaceRequest : String
deriving DecidableEq

/-- multus types.NetworkStatus (the fields used here). -/
structure NetworkStatus where
  name : String
  interface : String
  ips : List String
deriving DecidableEq

/-- Error/value result, mirroring Go's `(T, error)` convention. -/
def isErr {ε α : Type} : Except ε α → Bool
  | .error _ => true
  | .ok _ => false

/-- The regex-validation loop of parsePodNetworkSelectionElement
(utils.go lines 121-129): each of namespace, name, interface must match
the label pattern unless it is empty; first offender aborts. -/
def validateUnits (ns nm itf : String) : Except String NetworkSelectionElement :=
  if validName ns = false ∧ ns ≠ "" then
    .error ("at least one of the network selection units is invalid: error found at '" ++ ns ++ "'")
  else if validName nm = false ∧ nm ≠ "" then
    .error ("at least one of the network selection units is invalid: error found at '" ++ nm ++ "'")
  else if validName itf = false ∧ itf ≠ "" then
    .error ("at least one of the network selection units is invalid: error found at '" ++ itf ++ "'")
  else
    .ok ⟨ns, nm, itf⟩

/-- The `@`-splitting step of parsePodNetworkSelectionElement
(utils.go lines 107-119): `name ["@" interface]`. -/
def parseAtSplit (ns nm0 selection : String) : Except String NetworkSelectionElement :=
  match (splitOnChar '@' nm0.data).map List.asString with
  | [nm] => validateUnits ns nm ""
  | [nm, itf] => validateUnits ns nm itf
  | _ =>
    .error ("invalid network selection element - more than one '@' rune in: '" ++ selection ++ "'")

/-- utils.go parsePodNetworkSelectionElement: grammar
`[namespace "/"] name ["@" interface]` with label-pattern validation. -/
def parsePodNetworkSelectionElement (selection defaultNamespace : String) :
    Except String NetworkSelectionElement :=
  match (splitOnChar '/' selection.data).map List.asString with
  | [nm0] => parseAtSplit defaultNamespace nm0 selection
  | [ns0, nm0] => parseAtSplit ns0 nm0 selection
  | _ =>
    .error ("invalid network selection element - more than one '/' rune in: '" ++ selection ++ "'")

/-- The comma-separated loop of parsePodNetworkSelections
(utils.go lines 67-76): parse each unit, abort the whole call on the first
failing unit. -/
def parseCommaUnits (defaultNamespace : String) :
    List String → Except String (List NetworkSelectionElement)
  | [] => .ok []
  | u :: rest =>
    match parsePodNetworkSelectionElement u defaultNamespace with
    | .error e => .error ("error parsing network selection element: " ++ e)
    | .ok el =>
      match parseCommaUnits defaultNamespace rest with
      | .error e => .error e
      | .ok els => .ok (el :: els)

/-- The trimmed comma-separated units of a raw selection value
(`strings.Split(raw, ",")` then `strings.TrimSpace` per unit). -/
def commaUnits (raw : String) : List String :=
  (splitOnChar ',' raw.data).map (fun cs => (trimChars cs).asString)

/-- The namespace-defaulting pass of parsePodNetworkSelections
(utils.go lines 80-84). -/
def fillNamespace (defaultNamespace : String) (e : NetworkSelectionElement) :
    NetworkSelectionElement :=
  if e.Namespace = "" then { e with Namespace := defaultNamespace } else e

/-- utils.go parsePodNetworkSelections.  `decode` is the external
encoding/json array decoder (`json.Unmarshal` into
`[]*types.NetworkSelectionElement`): `some` when it succeeds, `none` when
it reports an error and the comma-separated fallback runs. -/
def parsePodNetworkSelections
    (decode : String → Option (List NetworkSelectionElement))
    (podNetworks defaultNamespace : String) :
    Except String (List NetworkSelectionElement) :=
  if podNetworks.data = [] then
    .error "empty string passed as network selection elements list"
  else
    match
      (match decode podNetworks with
       | some sels => Except.ok sels
       | none => parseCommaUnits defaultNamespace (commaUnits podNetworks)) with
    | .error e => .error e
    | .ok sels => .ok (sels.map (fillNamespace defaultNamespace))

/-- utils.go isInNetworkSelectionElementsArray: membership by `Name` only. -/
def isInNetworkSelectionElementsArray (name : String)
    (networks : List NetworkSelectionElement) : Bool :=
  networks.any (fun e => name = e.Name)

/-- The `k8s.v1.cni.cncf.io/networks` annotation key (selectionsKey). -/
def selectionsKey : String := "k8s.v1.cni.cncf.io/networks"

/-- The `k8s.v1.cni.cncf.io/networks-status` annotation key (statusesKey). -/
def statusesKey : String := "k8s.v1.cni.cncf.io/networks-status"

/-- Annotation-map lookup (Go `map[string]string` indexing with ok flag). -/
def lookupAnn : List (String × String) → String → Option String
  | [], _ => none
  | (k, v) :: rest, key => if k = key then some v else lookupAnn rest key

/-- corev1.ServicePort (the fields the controller reads). -/
structure ServicePort where
  name : String
  protocol : String
  port : Int
deriving DecidableEq

/-- corev1.Service (the fields the controller reads). -/
structure Service where
  namespc : String
  name : String
  anns : List (String × String)
  selector : List (String × String)
  ports : List ServicePort
  resourceVersion : String
  uid : String
deriving DecidableEq

/-- corev1.Pod (the fields the controller reads). -/
structure Pod where
  namespc : String
  name : String
  anns : List (String × String)
  nodeName : String
  resourceVersion : String
  uid : String
deriving DecidableEq

/-- corev1.ObjectReference as built for endpoint target refs. -/
structure TargetRef where
  kind : String
  name : String
  namespc : String
  resourceVersion : String
  uid : String
deriving DecidableEq

/-- corev1.EndpointAddress as built by sync. -/
structure EndpointAddress where
  ip : String
  nodeName : String
  targetRef : TargetRef
deriving DecidableEq

/-- corev1.EndpointPort as built by sync. -/
structure EndpointPort where
  name : String
  protocol : String
  port : Int
deriving DecidableEq

/-- corev1.EndpointSubset. -/
structure EndpointSubset where
  addresses : List EndpointAddress
  ports : List EndpointPort
deriving DecidableEq

/-- metav1.OwnerReference as built by metav1.NewControllerRef. -/
structure OwnerReference where
  apiVersion : String
  kind : String
  name : String
  uid : String
  controller : Bool
deriving DecidableEq

/-- corev1.Endpoints (the fields the controller touches). -/
structure Endpoints where
  namespc : String
  name : String
  subsets : List EndpointSubset
  ownerReferences : List OwnerReference
deriving DecidableEq

/-- NetworkAttachmentDefinition (identity plus the opaque rest of the
object that DeepCopy clones). -/
structure NetAttachDef where
  namespc : String
  name : String
  resourceVersion : String
  config : String
deriving DecidableEq

/-- utils.go getNetworkAnnotations: the selections annotation value, or ""
when the key is absent. -/
def getNetworkAnnotations (anns : List (String × String)) : String :=
  (lookupAnn anns selectionsKey).getD ""

/-- cache.SplitMetaNamespaceKey: `name` or `namespace/name`. -/
def splitMetaNamespaceKey (key : String) : Except String (String × String) :=
  match (splitOnChar '/' key.data).map List.asString with
  | [nm] => .ok ("", nm)
  | [ns, nm] => .ok (ns, nm)
  | _ => .error ("unexpected key format: " ++ key)

/-- A recorded Kubernetes event: `recorder.Event(object, eventtype, reason,
message)` keeps the four arguments in this order. -/
structure RecordedEvent where
  objKind : String
  objNamespace : String
  objName : String
  eventtype : String
  reason : String
  message : String
deriving DecidableEq

/-- Modelled from the spec: `endpoints.RepackSubsets` comes from
k8s.io/kubernetes/pkg/api/v1/endpoints, which is not part of this
repository.  The spec describes the step as: subsets sharing an identical
port set are merged so their addresses are combined into one subset;
subsets with differing port sets remain distinct. -/
def repackFor (subsets : List EndpointSubset) (ps : List EndpointPort) : EndpointSubset :=
  ⟨((subsets.filter (fun s => decide (s.ports = ps))).map EndpointSubset.addresses).flatten,
   ps⟩

/-- Modelled from the spec (continued): one merged subset per distinct port
set, in order of first occurrence. -/
def repackSubsets (subsets : List EndpointSubset) : List EndpointSubset :=
  ((subsets.map EndpointSubset.ports).dedup).map (repackFor subsets)

/-- The environment of external collaborators consumed by the sync:
cache lookups, the JSON decoders, podutil.FindPort and the live update
call. -/
structure SyncEnv where
  getService : String → String → Option Service
  listPods : List (String × String) → Except String (List Pod)
  getEndpoints : String → String → Option Endpoints
  decodeSelections : String → Option (List NetworkSelectionElement)
  decodeStatus : String → Option (List NetworkStatus)
  findPort : Pod → ServicePort → Option Int
  updateEndpoints : Endpoints → Except String Endpoints

/-- Result of one sync call: the returned error, the events recorded, the
Endpoints update call issued (its argument), and the klog error-level
lines. -/
structure SyncResult where
  err : Option String
  events : List RecordedEvent
  updateCall : Option Endpoints
  errorLogs : List String
deriving DecidableEq

/-- The (constant) message of the multiple-selections abort
(controller.go line 172). -/
def multiSelectionsMsg : String :=
  "multiple network selections in the service spec are not supported"

/-- The pod's networks-status annotation value (map indexing defaults to
"" for a missing key, as in controller.go line 201). -/
def podStatusAnn (pod : Pod) : String :=
  (lookupAnn pod.anns statusesKey).getD ""

/-- One iteration of the pod loop of sync (controller.go lines 196-247):
`none` when the networks-status annotation fails to decode (the pod is
skipped), otherwise the subset built from matching status entries and
resolvable service ports. -/
def podSubset (env : SyncEnv) (svc : Service)
    (networks : List NetworkSelectionElement) (pod : Pod) :
    Option EndpointSubset :=
  match env.decodeStatus (podStatusAnn pod) with
  | none => none
  | some statuses =>
    let addresses :=
      (statuses.map (fun st =>
        if isInNetworkSelectionElementsArray st.name networks then
          st.ips.map (fun ip =>
            ⟨ip, pod.nodeName, ⟨"Pod", pod.name, pod.namespc, pod.resourceVersion, pod.uid⟩⟩)
        else [])).flatten
    let ports :=
      svc.ports.filterMap (fun sp =>
        match env.findPort pod sp with
        | none => none
        | some n => some (⟨sp.name, sp.protocol, n⟩ : EndpointPort))
    some ⟨addresses, ports⟩

/-- metav1.NewControllerRef(svc, v1 Service) as set on the Endpoints. -/
def serviceOwnerRef (svc : Service) : OwnerReference :=
  ⟨"v1", "Service", svc.name, svc.uid, true⟩

/-- Tail of sync from the endpoints lookup on (controller.go lines
187-276): build subsets, set the owner reference, repack, update, emit the
two Normal events. -/
def syncUpdate (env : SyncEnv) (svc : Service) (anns : String)
    (networks : List NetworkSelectionElement) (pods : List Pod)
    (ep : Endpoints) : SyncResult :=
  let subsets := pods.filterMap (podSubset env svc networks)
  let ep2 : Endpoints :=
    { ep with
      ownerReferences := [serviceOwnerRef svc],
      subsets := repackSubsets subsets }
  match env.updateEndpoints ep2 with
  | .error e => ⟨some e, [], some ep2, ["error updating endpoint: " ++ e]⟩
  | .ok _ =>
    let msg := "Updated to use network " ++ anns
    ⟨none,
     [⟨"Endpoints", ep2.namespc, ep2.name, "Normal", msg, "Endpoints update successful"⟩,
      ⟨"Service", svc.namespc, svc.name, "Normal", msg, "Endpoints update successful"⟩],
     some ep2, []⟩

/-- Middle of sync once the selections parsed (controller.go lines
171-192): the multiple-selections abort, the pod listing and the endpoints
lookup. -/
def syncWithNetworks (env : SyncEnv) (namespc name : String) (svc : Service)
    (anns : String) (networks : List NetworkSelectionElement) : SyncResult :=
  if 1 < networks.length then
    ⟨some multiSelectionsMsg,
     [⟨"Service", svc.namespc, svc.name, "Warning", multiSelectionsMsg,
       "Endpoints update aborted"⟩],
     none, []⟩
  else
    match env.listPods svc.selector with
    | .error e => ⟨some e, [], none, []⟩
    | .ok pods =>
      match env.getEndpoints namespc name with
      | none => ⟨some "error getting service endpoints: not found", [], none, []⟩
      | some ep => syncUpdate env svc anns networks pods ep

/-- sync for a resolved Service (controller.go lines 161-176): annotation
presence check, selection parse, then `syncWithNetworks`. -/
def syncService (env : SyncEnv) (namespc name : String) (svc : Service) : SyncResult :=
  let anns := getNetworkAnnotations svc.anns
  if anns.data = [] then
    ⟨some "no network annotations", [], none, []⟩
  else
    match parsePodNetworkSelections env.decodeSelections anns namespc with
    | .error e => ⟨some e, [], none, [e]⟩
    | .ok networks => syncWithNetworks env namespc name svc anns networks

/-- controller.go sync: split the key, resolve the Service from the cache
(a failed lookup returns the NotFound error), then `syncService`. -/
def sync (env : SyncEnv) (key : String) : SyncResult :=
  match splitMetaNamespaceKey key with
  | .error e => ⟨some e, [], none, []⟩
  | .ok (namespc, name) =>
    match env.getService namespc name with
    | none => ⟨some ("service \"" ++ name ++ "\" not found"), [], none, []⟩
    | some svc => syncService env namespc name svc

/-- Result of processNextWorkItem: whether the worker loop continues, the
V(4) info line written when sync returned an error, and the trace of the
sync call itself. -/
structure WorkResult where
  proceed : Bool
  infoLogs : List String
  events : List RecordedEvent
  updateCall : Option Endpoints
  errorLogs : List String
deriving DecidableEq

/-- controller.go processNextWorkItem: a quitting queue stops the worker;
otherwise sync runs, its error is only logged at info verbosity (V(4)) and
the function reports `true` so the worker keeps going. -/
def processNextWorkItem (env : SyncEnv) (item : Option String) : WorkResult :=
  match item with
  | none => ⟨false, [], [], none, []⟩
  | some key =>
    let r := sync env key
    ⟨true,
     (match r.err with
      | some e => ["sync aborted: " ++ e]
      | none => []),
     r.events, r.updateCall, r.errorLogs⟩

/-- Outcome of the inner selection loop of handleNetAttachDefDeleteEvent
for one pod: either a create was issued and the handler returned, or the
scan goes on; the counter is the number of live Get calls made so far. -/
inductive ScanStep where
  | createdAndReturned (k : Nat)
  | continued (k : Nat)
deriving DecidableEq

/-- Inner loop of handleNetAttachDefDeleteEvent (controller.go lines
344-366): for each parsed element matching the deleted object's identity,
re-check existence against the live API (`live k` is the outcome of the
k-th Get: `true` = still present); on the first recheck that finds the
object absent, create the recovered clone and return. -/
def scanNets (deleted : NetAttachDef) (live : Nat → Bool) :
    List NetworkSelectionElement → Nat → ScanStep
  | [], k => .continued k
  | net :: rest, k =>
    if net.Namespace = deleted.namespc ∧ net.Name = deleted.name then
      if live k then scanNets deleted live rest (k + 1)
      else .createdAndReturned (k + 1)
    else scanNets deleted live rest k

/-- Outer loop of handleNetAttachDefDeleteEvent (controller.go lines
335-367): pods without the selections annotation or with an unparseable
one are skipped; returns the final Get-call count and whether a create was
issued. -/
def scanPods (deleted : NetAttachDef) (live : Nat → Bool)
    (decode : String → Option (List NetworkSelectionElement)) :
    List Pod → Nat → Nat × Bool
  | [], k => (k, false)
  | pod :: rest, k =>
    match lookupAnn pod.anns selectionsKey with
    | none => scanPods deleted live decode rest k
    | some anns =>
      match parsePodNetworkSelections decode anns pod.namespc with
      | .error _ => scanPods deleted live decode rest k
      | .ok nets =>
        match scanNets deleted live nets k with
        | .createdAndReturned k2 => (k2, true)
        | .continued k2 => scanPods deleted live decode rest k2

/-- The recovered clone: DeepCopy with the ResourceVersion cleared
(controller.go lines 353-354). -/
def recoveredClone (deleted : NetAttachDef) : NetAttachDef :=
  { deleted with resourceVersion := "" }

/-- Result of the deletion-recovery workflow: the create calls issued (the
recovered clone) and the number of live Get calls made. -/
structure RecoveryResult where
  creates : List NetAttachDef
  getCalls : Nat
deriving DecidableEq

/-- controller.go handleNetAttachDefDeleteEvent over the cached pod list:
scan pods for a selection referencing the deleted object; at each match
re-check the live API, and on the first recheck reporting the object
absent issue one create of the recovered clone and return. -/
def handleNetAttachDefDeleteEvent (deleted : NetAttachDef) (pods : List Pod)
    (decode : String → Option (List NetworkSelectionElement))
    (live : Nat → Bool) : RecoveryResult :=
  match scanPods deleted live decode pods 0 with
  | (k, true) => ⟨[recoveredClone deleted], k⟩
  | (k, false) => ⟨[], k⟩

end NadCtrl

namespace NadCtrl

example : parsePodNetworkSelections (fun _ => none) "br0" "default"
    = .ok [⟨"default", "br0", ""⟩] := by rfl

example : parsePodNetworkSelections (fun _ => none) "foo/bar@eth1" "default"
    = .ok [⟨"foo", "bar", "eth1"⟩] := by rfl

example : isErr (parsePodNetworkSelections (fun _ => none) "" "default") = true := by decide

example : isErr (parsePodNetworkSelections (fun _ => none) "a/b/c" "default") = true := by decide

example : parsePodNetworkSelections (fun _ => none) " net1 , ns2/net2 " "d"
    = .ok [⟨"d", "net1", ""⟩, ⟨"ns2", "net2", ""⟩] := by rfl

/-- In a duplicate-free list, filtering for one of its members keeps
exactly that member. -/
theorem filter_eq_singleton_of_nodup {α : Type} [DecidableEq α]
    (l : List α) (a : α) (hnd : l.Nodup) (ha : a ∈ l) :
    l.filter (fun x => decide (x = a)) = [a] := by
  induction l with
  | nil => cases ha
  | cons b t ih =>
    rcases List.nodup_cons.mp hnd with ⟨hbt, hnt⟩
    rcases List.mem_cons.mp ha with hba | hat
    · subst hba
      have ht : t.filter (fun x => decide (x = a)) = [] := by
        rw [List.filter_eq_nil_iff]
        intro x hx
        simp only [decide_eq_true_eq]
        intro hxa
        exact hbt (hxa ▸ hx)
      simp [List.filter_cons, ht]
    · have hba : ¬(b = a) := fun h => hbt (h ▸ hat)
      simp [List.filter_cons, hba, ih hnt hat]

/-- The merged subset built for a port set carries that port set. -/
theorem repackFor_ports (s : List EndpointSubset) (ps : List EndpointPort) :
    (repackFor s ps).ports = ps := rfl

/-- If filtering a list by a port set yields exactly the subset that
`repackFor s` builds for it, the merge over that list reproduces the merge
over `s`. -/
theorem repackFor_filter_singleton (A s : List EndpointSubset) (ps : List EndpointPort)
    (h : A.filter (fun t => decide (t.ports = ps)) = [repackFor s ps]) :
    repackFor A ps = repackFor s ps := by
  unfold repackFor
  rw [h]
  simp [repackFor]

/-- C6: the subset repacking step of the sync algorithm is idempotent:
repacking the result of a repack yields the same result as repacking once. -/
theorem C6_repackSubsets_idempotent (s : List EndpointSubset) :
    repackSubsets (repackSubsets s) = repackSubsets s := by
  unfold repackSubsets
  have h1 : (((s.map EndpointSubset.ports).dedup).map (repackFor s)).map EndpointSubset.ports
      = (s.map EndpointSubset.ports).dedup := by
    rw [List.map_map]
    exact List.map_id'' (fun ps => rfl) _
  rw [h1, (List.nodup_dedup (s.map EndpointSubset.ports)).dedup]
  apply List.map_congr_left
  intro ps hps
  apply repackFor_filter_singleton
  rw [List.filter_map]
  rw [show ((fun t : EndpointSubset => decide (t.ports = ps)) ∘ repackFor s)
        = (fun q => decide (q = ps)) from rfl]
  rw [filter_eq_singleton_of_nodup _ ps (List.nodup_dedup _) hps]
  rfl

/-- Concrete service, pod and environment exercising the name-only
network-status match of sync: the selection element lives in namespace
"ns-a" while the pod (and hence the network its status reports) lives in
namespace "ns-b". -/
def svcC10 : Service :=
  ⟨"ns-a", "svc1", [(selectionsKey, "net1")], [("app", "x")], [], "1", "u-svc"⟩

def podC10 : Pod :=
  ⟨"ns-b", "pod1", [(statusesKey, "st1")], "node1", "7", "u-pod"⟩

def envC10 : SyncEnv where
  getService := fun ns nm => if ns = "ns-a" ∧ nm = "svc1" then some svcC10 else none
  listPods := fun _ => .ok [podC10]
  getEndpoints := fun ns nm =>
    if ns = "ns-a" ∧ nm = "svc1" then some ⟨"ns-a", "svc1", [], []⟩ else none
  decodeSelections := fun _ => none
  decodeStatus := fun s =>
    if s = "st1" then some [⟨"net1", "eth1", ["10.0.0.1"]⟩] else none
  findPort := fun _ _ => none
  updateEndpoints := fun e => .ok e

/-- C10: matching a pod's network-status entries against the selected
network compares only the `Name` fields — the selection elements'
namespaces can be rewritten arbitrarily without changing the outcome — and
in a concrete sync a pod from namespace "ns-b" whose status entry is named
like the "ns-a" selection still has its IP added as an endpoint address
(visible in the issued update's target reference). -/
theorem C10_name_only_matching :
    (∀ (name : String) (nets : List NetworkSelectionElement)
        (f : NetworkSelectionElement → String),
      isInNetworkSelectionElementsArray name
          (nets.map (fun e => { e with Namespace := f e }))
        = isInNetworkSelectionElementsArray name nets) ∧
    (sync envC10 "ns-a/svc1").updateCall
      = some ⟨"ns-a", "svc1",
              [⟨[⟨"10.0.0.1", "node1", ⟨"Pod", "pod1", "ns-b", "7", "u-pod"⟩⟩], []⟩],
              [⟨"v1", "Service", "svc1", "u-svc", true⟩]⟩ := by
  constructor
  · intro name nets f
    unfold isInNetworkSelectionElementsArray
    rw [List.any_map]
    rfl
  · rfl

/-- C9: when the JSON decoder succeeds on the raw selection value, the
resulting elements bypass the label-pattern validation entirely: a decoded
element named "Foo" (uppercase, rejected by the pattern) is returned as-is
(after namespace defaulting), while the same string on the comma-separated
path is a hard error. -/
theorem C9_json_path_skips_validation
    (decode : String → Option (List NetworkSelectionElement)) (raw d : String)
    (h1 : decode raw = some [⟨"", "Foo", ""⟩]) (h2 : raw.data ≠ []) :
    parsePodNetworkSelections decode raw d = .ok [⟨d, "Foo", ""⟩] ∧
    isErr (parsePodNetworkSelectionElement "Foo" d) = true := by
  constructor
  · unfold parsePodNetworkSelections
    rw [if_neg h2, h1]
    rfl
  · have hstep : parsePodNetworkSelectionElement "Foo" d = validateUnits d "Foo" "" := rfl
    rw [hstep]
    unfold validateUnits
    by_cases hd : validName d = false ∧ d ≠ ""
    · rw [if_pos hd]
      rfl
    · rw [if_neg hd, if_pos (by decide : validName "Foo" = false ∧ "Foo" ≠ "")]
      rfl

/-- Witness for C9 at a concrete JSON input containing an uppercase name. -/
theorem C9_witness :
    parsePodNetworkSelections
        (fun s => if s = "[\x7b\"name\": \"Foo\"\x7d]" then some [⟨"", "Foo", ""⟩] else none)
        "[\x7b\"name\": \"Foo\"\x7d]" "default"
      = .ok [⟨"default", "Foo", ""⟩] ∧
    isErr (parsePodNetworkSelectionElement "Foo" "default") = true :=
  C9_json_path_skips_validation
    (fun s => if s = "[\x7b\"name\": \"Foo\"\x7d]" then some [⟨"", "Foo", ""⟩] else none)
    "[\x7b\"name\": \"Foo\"\x7d]" "default" (by rfl) (by decide)

/-- C3 fails as stated when the caller's default namespace is itself
empty: the call returns without error and the single element keeps an
empty Namespace. -/
theorem C3_counterexample :
    parsePodNetworkSelections (fun _ => none) "br0" ""
      = .ok [{ Namespace := "", Name := "br0", InterfaceRequest := "" }] := by rfl

/-- After the defaulting pass a namespace is non-empty provided the
default is. -/
theorem fillNamespace_ne (d : String) (hd : d ≠ "") (e : NetworkSelectionElement) :
    (fillNamespace d e).Namespace ≠ "" := by
  unfold fillNamespace
  by_cases h : e.Namespace = ""
  · rw [if_pos h]
    exact hd
  · rw [if_neg h]
    exact h

/-- C3 (amended with a non-empty default namespace): every parseSelections
call with defaultNamespace ≠ "" that returns without error yields only
elements with a non-empty Namespace; the result is the parsed list (from
the JSON path or the comma path) mapped through the defaulting pass, which
leaves every element with an explicit non-empty Namespace unchanged. -/
theorem C3_amended_nonempty_namespaces
    (decode : String → Option (List NetworkSelectionElement))
    (raw d : String) (sels : List NetworkSelectionElement)
    (hd : d ≠ "")
    (h : parsePodNetworkSelections decode raw d = .ok sels) :
    (∀ e ∈ sels, e.Namespace ≠ "") ∧
    ∃ pre,
      (decode raw = some pre ∨ parseCommaUnits d (commaUnits raw) = .ok pre) ∧
      sels = pre.map (fillNamespace d) ∧
      ∀ e ∈ pre, e.Namespace ≠ "" → fillNamespace d e = e := by
  unfold parsePodNetworkSelections at h
  by_cases hraw : raw.data = []
  · rw [if_pos hraw] at h
    cases h
  · rw [if_neg hraw] at h
    have main : ∃ pre,
        (decode raw = some pre ∨ parseCommaUnits d (commaUnits raw) = .ok pre) ∧
        sels = pre.map (fillNamespace d) := by
      cases hdec : decode raw with
      | some pre =>
        rw [hdec] at h
        refine ⟨pre, .inl rfl, ?_⟩
        cases h
        rfl
      | none =>
        rw [hdec] at h
        cases hcomma : parseCommaUnits d (commaUnits raw) with
        | error e =>
          rw [hcomma] at h
          cases h
        | ok pre =>
          rw [hcomma] at h
          refine ⟨pre, .inr rfl, ?_⟩
          cases h
          rfl
    rcases main with ⟨pre, hpath, hsels⟩
    constructor
    · intro e he
      rw [hsels] at he
      rcases List.mem_map.mp he with ⟨e0, _, he0⟩
      rw [← he0]
      exact fillNamespace_ne d hd e0
    · refine ⟨pre, hpath, hsels, ?_⟩
      intro e _ hne
      unfold fillNamespace
      rw [if_neg hne]

/-- Witness for the amended C3 at a concrete comma-separated input. -/
theorem C3_amended_witness :
    (∀ e ∈ [(⟨"default", "br0", ""⟩ : NetworkSelectionElement)], e.Namespace ≠ "") ∧
    ∃ pre,
      ((fun _ => none : String → Option (List NetworkSelectionElement)) "br0" = some pre ∨
        parseCommaUnits "default" (commaUnits "br0") = .ok pre) ∧
      [(⟨"default", "br0", ""⟩ : NetworkSelectionElement)] = pre.map (fillNamespace "default") ∧
      ∀ e ∈ pre, e.Namespace ≠ "" → fillNamespace "default" e = e :=
  C3_amended_nonempty_namespaces (fun _ => none) "br0" "default"
    [⟨"default", "br0", ""⟩] (by decide) (by rfl)

/-- C4: when the Service named by the dequeued key is absent from the
cache, the work item completes silently: the worker keeps going
(`proceed = true`), nothing is logged at error level, no event is emitted
and no Endpoints update is issued; the only trace is the V(4) info line. -/
theorem C4_stale_key_silent_abort (env : SyncEnv) (key ns nm : String)
    (h1 : splitMetaNamespaceKey key = .ok (ns, nm))
    (h2 : env.getService ns nm = none) :
    processNextWorkItem env (some key)
      = ⟨true, ["sync aborted: " ++ ("service \"" ++ nm ++ "\" not found")], [], none, []⟩ := by
  simp only [processNextWorkItem, sync, h1, h2]

/-- Witness for C4 with an empty service cache. -/
theorem C4_witness :
    processNextWorkItem
        ⟨fun _ _ => none, fun _ => .ok [], fun _ _ => none, fun _ => none,
         fun _ => none, fun _ _ => none, fun e => .ok e⟩
        (some "default/svc1")
      = ⟨true, ["sync aborted: service \"svc1\" not found"], [], none, []⟩ :=
  C4_stale_key_silent_abort
    ⟨fun _ _ => none, fun _ => .ok [], fun _ _ => none, fun _ => none,
     fun _ => none, fun _ _ => none, fun e => .ok e⟩
    "default/svc1" "default" "svc1" (by rfl) (by rfl)

/-- C1: when the service's selection annotation parses to more than one
element, sync aborts with exactly one Warning event on the Service and an
error, issuing no Endpoints update; the result is moreover independent of
the endpoints cache, the pod lister and the update call (they are replaced
by arbitrary `g`, `l`, `u`), so the Endpoints object is neither read nor
written on this path. -/
theorem C1_multiple_selections_abort (env : SyncEnv)
    (g : String → String → Option Endpoints)
    (u : Endpoints → Except String Endpoints)
    (l : List (String × String) → Except String (List Pod))
    (key ns nm : String) (svc : Service) (nets : List NetworkSelectionElement)
    (h1 : splitMetaNamespaceKey key = .ok (ns, nm))
    (h2 : env.getService ns nm = some svc)
    (h3 : parsePodNetworkSelections env.decodeSelections
        (getNetworkAnnotations svc.anns) ns = .ok nets)
    (h4 : 1 < nets.length) :
    sync { env with getEndpoints := g, updateEndpoints := u, listPods := l } key
      = ⟨some multiSelectionsMsg,
         [⟨"Service", svc.namespc, svc.name, "Warning", multiSelectionsMsg,
           "Endpoints update aborted"⟩],
         none, []⟩ := by
  have hanns : ¬((getNetworkAnnotations svc.anns).data = []) := by
    intro hz
    unfold parsePodNetworkSelections at h3
    rw [if_pos hz] at h3
    cases h3
  simp only [sync, syncService, syncWithNetworks, h1, h2, h3, if_neg hanns, if_pos h4]

/-- Concrete environment whose single service carries a two-element
selection annotation. -/
def svcC1 : Service :=
  ⟨"default", "svc1", [(selectionsKey, "net1,net2")], [], [], "1", "u-svc"⟩

def envC1 : SyncEnv where
  getService := fun ns nm => if ns = "default" ∧ nm = "svc1" then some svcC1 else none
  listPods := fun _ => .ok []
  getEndpoints := fun _ _ => none
  decodeSelections := fun _ => none
  decodeStatus := fun _ => none
  findPort := fun _ _ => none
  updateEndpoints := fun e => .ok e

/-- Witness for C1 at the concrete two-element selection "net1,net2". -/
theorem C1_witness :
    sync { envC1 with
           getEndpoints := fun _ _ => none,
           updateEndpoints := fun e => .ok e,
           listPods := fun _ => .ok [] } "default/svc1"
      = ⟨some multiSelectionsMsg,
         [⟨"Service", "default", "svc1", "Warning", multiSelectionsMsg,
           "Endpoints update aborted"⟩],
         none, []⟩ :=
  C1_multiple_selections_abort envC1 (fun _ _ => none) (fun e => .ok e)
    (fun _ => .ok []) "default/svc1" "default" "svc1" svcC1
    [⟨"default", "net1", ""⟩, ⟨"default", "net2", ""⟩]
    (by rfl) (by rfl) (by rfl) (by decide)

/-- Concrete environment reaching the multiple-selections abort, used to
exhibit which argument of the event record carries which text. -/
def envC7 : SyncEnv where
  getService := fun ns nm =>
    if ns = "default" ∧ nm = "svc1"
    then some ⟨"default", "svc1", [(selectionsKey, "net1,net2")], [], [], "1", "u-svc"⟩
    else none
  listPods := fun _ => .ok []
  getEndpoints := fun _ _ => none
  decodeSelections := fun _ => none
  decodeStatus := fun _ => none
  findPort := fun _ _ => none
  updateEndpoints := fun e => .ok e

/-- C7 fails as stated: on the multiple-selection abort the recorded
event's `reason` argument is the long "multiple network selections..."
message, not the fixed text "Endpoints update aborted", which is passed as
the event's `message` argument instead (recorder.Event(object, eventtype,
reason, message) receives the two texts swapped relative to the claim). -/
theorem C7_counterexample :
    (sync envC7 "default/svc1").events
      = [⟨"Service", "default", "svc1", "Warning", multiSelectionsMsg,
          "Endpoints update aborted"⟩] ∧
    multiSelectionsMsg ≠ "Endpoints update aborted" ∧
    multiSelectionsMsg ≠ "Endpoints update successful" :=
  ⟨by rfl, by decide, by decide⟩

/-- C7 (amended): every event emitted by sync carries the fixed text as
its `message` argument — "Endpoints update successful" on Normal events,
"Endpoints update aborted" on the Warning abort event — while the `reason`
argument holds "Updated to use network <selection>" on success and the
"multiple network selections..." sentence on the abort (which is emitted
on the Service). -/
theorem C7_amended_event_texts (env : SyncEnv) (key : String) (e : RecordedEvent)
    (he : e ∈ (sync env key).events) :
    (e.eventtype = "Normal" ∧ e.message = "Endpoints update successful" ∧
      ∃ anns, e.reason = "Updated to use network " ++ anns) ∨
    (e.eventtype = "Warning" ∧ e.message = "Endpoints update aborted" ∧
      e.reason = multiSelectionsMsg ∧ e.objKind = "Service") := by
  simp only [sync, syncService, syncWithNetworks, syncUpdate] at he
  split at he
  · simp at he
  · split at he
    · simp at he
    · split at he
      · simp at he
      · split at he
        · simp at he
        · split at he
          · simp at he
            subst he
            right
            exact ⟨rfl, rfl, rfl, rfl⟩
          · split at he
            · simp at he
            · split at he
              · simp at he
              · split at he
                · simp at he
                · simp at he
                  rcases he with rfl | rfl
                  · exact .inl ⟨rfl, rfl, _, rfl⟩
                  · exact .inl ⟨rfl, rfl, _, rfl⟩

/-- Witness for the amended C7: a successful sync emits its events with
the fixed text in the message argument. -/
theorem C7_amended_witness :
    ((⟨"Endpoints", "ns-a", "svc1", "Normal",
        "Updated to use network " ++ "net1", "Endpoints update successful"⟩ :
          RecordedEvent).eventtype = "Normal" ∧
      (⟨"Endpoints", "ns-a", "svc1", "Normal",
        "Updated to use network " ++ "net1", "Endpoints update successful"⟩ :
          RecordedEvent).message = "Endpoints update successful" ∧
      ∃ anns,
        (⟨"Endpoints", "ns-a", "svc1", "Normal",
          "Updated to use network " ++ "net1", "Endpoints update successful"⟩ :
            RecordedEvent).reason = "Updated to use network " ++ anns) ∨
    ((⟨"Endpoints", "ns-a", "svc1", "Normal",
        "Updated to use network " ++ "net1", "Endpoints update successful"⟩ :
          RecordedEvent).eventtype = "Warning" ∧
      (⟨"Endpoints", "ns-a", "svc1", "Normal",
        "Updated to use network " ++ "net1", "Endpoints update successful"⟩ :
          RecordedEvent).message = "Endpoints update aborted" ∧
      (⟨"Endpoints", "ns-a", "svc1", "Normal",
        "Updated to use network " ++ "net1", "Endpoints update successful"⟩ :
          RecordedEvent).reason = multiSelectionsMsg ∧
      (⟨"Endpoints", "ns-a", "svc1", "Normal",
        "Updated to use network " ++ "net1", "Endpoints update successful"⟩ :
          RecordedEvent).objKind = "Service") :=
  C7_amended_event_texts envC10 "ns-a/svc1"
    ⟨"Endpoints", "ns-a", "svc1", "Normal",
     "Updated to use network " ++ "net1", "Endpoints update successful"⟩
    (by decide)

/-- A pod whose networks-status annotation does not decode contributes no
subset. -/
theorem podSubset_none_of_bad_status (env : SyncEnv) (svc : Service)
    (networks : List NetworkSelectionElement) (p : Pod)
    (hdec : env.decodeStatus (podStatusAnn p) = none) :
    podSubset env svc networks p = none := by
  unfold podSubset
  rw [hdec]

/-- Replacing the pod lister leaves the per-pod subset builder unchanged
(it only consults the status decoder and the port resolver). -/
theorem podSubset_listPods_irrel (env : SyncEnv)
    (lp2 : List (String × String) → Except String (List Pod)) :
    podSubset { env with listPods := lp2 } = podSubset env := rfl

/-- Skipping lemma at the pod-listing stage: if the replaced lister
returns the same pods minus one whose networks-status annotation does not
decode, the tail of the sync is unchanged. -/
theorem syncWithNetworks_listPods_skip (env : SyncEnv)
    (lp2 : List (String × String) → Except String (List Pod))
    (ns nm : String) (svc : Service) (anns : String)
    (networks : List NetworkSelectionElement) (p : Pod)
    (hdec : env.decodeStatus (podStatusAnn p) = none)
    (hlp : lp2 svc.selector = env.listPods svc.selector ∨
      ∃ l1 l2, env.listPods svc.selector = .ok (l1 ++ p :: l2) ∧
        lp2 svc.selector = .ok (l1 ++ l2)) :
    syncWithNetworks { env with listPods := lp2 } ns nm svc anns networks
      = syncWithNetworks env ns nm svc anns networks := by
  have hnone : ∀ nets, podSubset env svc nets p = none :=
    fun nets => podSubset_none_of_bad_status env svc nets p hdec
  simp only [syncWithNetworks, syncUpdate]
  split
  · rfl
  · rcases hlp with heq | ⟨l1, l2, ha, hb⟩
    · rw [heq]
      simp only [podSubset_listPods_irrel]
    · simp only [ha, hb]
      split
      · rfl
      · simp only [podSubset_listPods_irrel, List.filterMap_append,
          List.filterMap_cons, hnone]

/-- C8: a pod whose networks-status annotation is missing or does not
decode is skipped and contributes nothing: a sync over a pod list
containing it gives exactly the same result — same error, events,
endpoints update and logs — as the sync over the list with that pod
removed, so the remaining pods are still processed and the sync can still
complete successfully. -/
theorem C8_bad_status_pod_skipped (env : SyncEnv)
    (lp2 : List (String × String) → Except String (List Pod))
    (p : Pod) (key : String)
    (hdec : env.decodeStatus (podStatusAnn p) = none)
    (hlp : ∀ sel, lp2 sel = env.listPods sel ∨
      ∃ l1 l2, env.listPods sel = .ok (l1 ++ p :: l2) ∧ lp2 sel = .ok (l1 ++ l2)) :
    sync { env with listPods := lp2 } key = sync env key := by
  simp only [sync, syncService]
  split
  · rfl
  · split
    · rfl
    · split
      · rfl
      · split
        · rfl
        · exact syncWithNetworks_listPods_skip env lp2 _ _ _ _ _ p hdec (hlp _)

/-- Concrete environment for the C8 witness: two pods behind the service,
the first with an undecodable networks-status annotation, the second
contributing one address; the sync completes successfully. -/
def svcC8 : Service :=
  ⟨"default", "svc1", [(selectionsKey, "net1")], [("app", "x")], [], "1", "u-svc"⟩

def podC8bad : Pod :=
  ⟨"default", "pod-bad", [(statusesKey, "garbage")], "node1", "3", "u-bad"⟩

def podC8good : Pod :=
  ⟨"default", "pod-good", [(statusesKey, "st-good")], "node2", "4", "u-good"⟩

def envC8 : SyncEnv where
  getService := fun ns nm => if ns = "default" ∧ nm = "svc1" then some svcC8 else none
  listPods := fun _ => .ok [podC8bad, podC8good]
  getEndpoints := fun ns nm =>
    if ns = "default" ∧ nm = "svc1" then some ⟨"default", "svc1", [], []⟩ else none
  decodeSelections := fun _ => none
  decodeStatus := fun s =>
    if s = "st-good" then some [⟨"net1", "eth1", ["10.0.0.2"]⟩] else none
  findPort := fun _ _ => none
  updateEndpoints := fun e => .ok e

/-- Witness for C8: dropping the undecodable pod changes nothing, and the
sync with it present still succeeds (it issues an update and no error). -/
theorem C8_witness :
    sync { envC8 with listPods := fun _ => .ok [podC8good] } "default/svc1"
      = sync envC8 "default/svc1" ∧
    (sync envC8 "default/svc1").err = none ∧
    (sync envC8 "default/svc1").updateCall ≠ none :=
  ⟨C8_bad_status_pod_skipped envC8 (fun _ => .ok [podC8good]) podC8bad "default/svc1"
      (by rfl) (fun sel => .inr ⟨[], [podC8good], rfl, rfl⟩),
   by rfl, by decide⟩

/-- Deleted object and two referencing pods for the C2 counterexample. -/
def nadC2 : NetAttachDef := ⟨"default", "net1", "5", "cfg"⟩

def podC2a : Pod := ⟨"default", "pod-a", [(selectionsKey, "net1")], "n1", "1", "ua"⟩

def podC2b : Pod := ⟨"default", "pod-b", [(selectionsKey, "net1")], "n2", "2", "ub"⟩

/-- C2 fails as stated: with two pods referencing the deleted object and a
live API that reports it present at the first recheck and absent at the
second, the workflow does not stop at the first pod match — it performs a
second Get (getCalls = 2) and issues a create for the second match,
whereas the claim mandates no create call and an end to the scan once the
first match's recheck finds the object present. -/
theorem C2_counterexample :
    handleNetAttachDefDeleteEvent nadC2 [podC2a, podC2b] (fun _ => none)
        (fun k => decide (k = 0))
      = ⟨[⟨"default", "net1", "", "cfg"⟩], 2⟩ := by rfl

/-- With a live API that always reports the object present, the inner
selection loop always falls through to the next pod. -/
theorem scanNets_continued_of_present (deleted : NetAttachDef) (live : Nat → Bool)
    (hall : ∀ n, live n = true) :
    ∀ (nets : List NetworkSelectionElement) (k : Nat),
      ∃ k2, scanNets deleted live nets k = .continued k2 := by
  intro nets
  induction nets with
  | nil => exact fun k => ⟨k, rfl⟩
  | cons net rest ih =>
    intro k
    unfold scanNets
    by_cases hm : net.Namespace = deleted.namespc ∧ net.Name = deleted.name
    · simp only [if_pos hm, hall k, if_true]
      exact ih (k + 1)
    · rw [if_neg hm]
      exact ih k

/-- With a live API that always reports the object present, the pod scan
never issues a create. -/
theorem scanPods_no_create_of_present (deleted : NetAttachDef) (live : Nat → Bool)
    (decode : String → Option (List NetworkSelectionElement))
    (hall : ∀ n, live n = true) :
    ∀ (pods : List Pod) (k : Nat), (scanPods deleted live decode pods k).2 = false := by
  intro pods
  induction pods with
  | nil => exact fun k => rfl
  | cons pod rest ih =>
    intro k
    unfold scanPods
    cases ha : lookupAnn pod.anns selectionsKey with
    | none =>
      simp only [ha]
      exact ih k
    | some anns =>
      simp only [ha]
      cases hp : parsePodNetworkSelections decode anns pod.namespc with
      | error e =>
        simp only [hp]
        exact ih k
      | ok nets =>
        obtain ⟨k2, hsc⟩ := scanNets_continued_of_present deleted live hall nets k
        simp only [hp, hsc]
        exact ih k2

/-- C2 (amended): the workflow stops at the first matched element whose
live recheck finds the object absent — at most one create call is ever
issued — while a recheck that finds the object present does not stop the
scan but never leads to a create by itself: against a live API that always
reports the object present, no create call is issued at all. -/
theorem C2_amended_single_recreate (deleted : NetAttachDef) (pods : List Pod)
    (decode : String → Option (List NetworkSelectionElement))
    (live live2 : Nat → Bool) (hall : ∀ n, live2 n = true) :
    (handleNetAttachDefDeleteEvent deleted pods decode live).creates.length ≤ 1 ∧
    (handleNetAttachDefDeleteEvent deleted pods decode live2).creates = [] := by
  constructor
  · unfold handleNetAttachDefDeleteEvent
    rcases hs : scanPods deleted live decode pods 0 with ⟨k, b⟩
    cases b <;> simp
  · unfold handleNetAttachDefDeleteEvent
    have h2 := scanPods_no_create_of_present deleted live2 decode hall pods 0
    rcases hs : scanPods deleted live2 decode pods 0 with ⟨k, b⟩
    rw [hs] at h2
    cases b
    · simp
    · cases h2

/-- Witness for the amended C2 at concrete inputs (always-absent and
always-present live rechecks). -/
theorem C2_amended_witness :
    (handleNetAttachDefDeleteEvent nadC2 [podC2a] (fun _ => none)
        (fun _ => false)).creates.length ≤ 1 ∧
    (handleNetAttachDefDeleteEvent nadC2 [podC2a] (fun _ => none)
        (fun _ => true)).creates = [] :=
  C2_amended_single_recreate nadC2 [podC2a] (fun _ => none)
    (fun _ => false) (fun _ => true) (fun _ => rfl)

/-- Splitting yields one more field than there are separator occurrences. -/
theorem splitOnAux_length (sep : Char) :
    ∀ (cs acc : List Char), (splitOnAux sep cs acc).length = cs.count sep + 1 := by
  intro cs
  induction cs with
  | nil =>
    intro acc
    simp [splitOnAux]
  | cons c t ih =>
    intro acc
    by_cases hc : c = sep
    · subst hc
      simp [splitOnAux, List.count_cons, ih]
    · have hc2 : (c == sep) = false := by
        simp [hc]
      simp [splitOnAux, hc, List.count_cons, ih, hc2]

/-- Occurrences of a non-separator rune distribute over the split fields. -/
theorem splitOnAux_count_sum (sep c : Char) (hne : c ≠ sep) :
    ∀ (cs acc : List Char),
      ((splitOnAux sep cs acc).map (List.count c)).sum = cs.count c + acc.count c := by
  intro cs
  induction cs with
  | nil =>
    intro acc
    simp [splitOnAux]
  | cons c2 t ih =>
    intro acc
    by_cases hc : c2 = sep
    · subst hc
      have hcc : (c2 == c) = false := by
        simp only [beq_eq_false_iff_ne]
        exact fun h => hne h.symm
      simp [splitOnAux, List.count_cons, ih, hcc]
      omega
    · simp [splitOnAux, hc, List.count_cons, ih, Nat.add_assoc, Nat.add_comm, Nat.add_left_comm]

/-- Every rune of a string whose tail pattern matches is a dash or a
lowercase alphanumeric. -/
theorem validTail_chars :
    ∀ (cs : List Char), validTail cs = true →
      ∀ c ∈ cs, (isLowerAlnum c || c = '-') = true := by
  intro cs
  induction cs with
  | nil =>
    intro _ c hc
    cases hc
  | cons a t ih =>
    intro h c hc
    cases t with
    | nil =>
      have ha : isLowerAlnum a = true := h
      rcases List.mem_singleton.mp hc with rfl
      simp [ha]
    | cons b t2 =>
      have h2 : ((isLowerAlnum a || decide (a = '-')) && validTail (b :: t2)) = true := h
      rw [Bool.and_eq_true] at h2
      rcases List.mem_cons.mp hc with rfl | hc2
      · exact h2.1
      · exact ih h2.2 c hc2

/-- A string containing a rune outside `[-a-z0-9]` never matches the label
pattern. -/
theorem validName_false_of_bad_char (s : String) (c : Char) (hc : c ∈ s.data)
    (h1 : isLowerAlnum c = false) (h2 : c ≠ '-') : validName s = false := by
  cases hv : validName s with
  | false => rfl
  | true =>
    exfalso
    unfold validName at hv
    cases hd : s.data with
    | nil =>
      rw [hd] at hc
      cases hc
    | cons a t =>
      rw [hd] at hv hc
      rw [Bool.and_eq_true] at hv
      rcases List.mem_cons.mp hc with rfl | hct
      · rw [h1] at hv
        cases hv.1
      · have := validTail_chars t hv.2 c hct
        rw [h1, Bool.false_or, decide_eq_true_eq] at this
        exact h2 this

/-- A string with a non-empty character list is not the empty string. -/
theorem string_ne_empty_of_mem (s : String) (c : Char) (hc : c ∈ s.data) : s ≠ "" := by
  intro h
  rw [h] at hc
  cases hc

/-- An invalid non-empty namespace component aborts the validation loop. -/
theorem validateUnits_isErr_left (ns nm itf : String)
    (h1 : validName ns = false) (h2 : ns ≠ "") :
    isErr (validateUnits ns nm itf) = true := by
  unfold validateUnits
  rw [if_pos ⟨h1, h2⟩]
  rfl

/-- An invalid non-empty name component aborts the validation loop. -/
theorem validateUnits_isErr_mid (ns nm itf : String)
    (h1 : validName nm = false) (h2 : nm ≠ "") :
    isErr (validateUnits ns nm itf) = true := by
  unfold validateUnits
  by_cases hns : validName ns = false ∧ ns ≠ ""
  · rw [if_pos hns]
    rfl
  · rw [if_neg hns, if_pos ⟨h1, h2⟩]
    rfl

/-- An invalid non-empty interface component aborts the validation loop. -/
theorem validateUnits_isErr_right (ns nm itf : String)
    (h1 : validName itf = false) (h2 : itf ≠ "") :
    isErr (validateUnits ns nm itf) = true := by
  unfold validateUnits
  by_cases hns : validName ns = false ∧ ns ≠ ""
  · rw [if_pos hns]
    rfl
  · rw [if_neg hns]
    by_cases hnm : validName nm = false ∧ nm ≠ ""
    · rw [if_pos hnm]
      rfl
    · rw [if_neg hnm, if_pos ⟨h1, h2⟩]
      rfl

/-- The (namespace, name, interface) components the grammar assigns to the
name-and-interface part of a unit, `none` when the `@` split overflows. -/
def atComponents (ns0 nm0 : String) : Option (String × String × String) :=
  match (splitOnChar '@' nm0.data).map List.asString with
  | [nm] => some (ns0, nm, "")
  | [nm, itf] => some (ns0, nm, itf)
  | _ => none

/-- The components the per-unit grammar `[namespace "/"] name
["@" interface]` assigns to a unit, `none` when a split overflows. -/
def unitComponents (u d : String) : Option (String × String × String) :=
  match (splitOnChar '/' u.data).map List.asString with
  | [nm0] => atComponents d nm0
  | [ns0, nm0] => atComponents ns0 nm0
  | _ => none

/-- A component violating the label pattern while non-empty. -/
def badComp (x : String) : Bool :=
  decide (validName x = false ∧ x ≠ "")

/-- Some component of the unit is non-empty yet violates the label
pattern. -/
def hasInvalidComponent (u d : String) : Bool :=
  match unitComponents u d with
  | none => false
  | some (ns, nm, itf) => badComp ns || badComp nm || badComp itf

/-- A name part with two or more '@' runes overflows the `@` split. -/
theorem parseAtSplit_isErr_many_at (ns0 nm0 sel : String)
    (h : 2 ≤ nm0.data.count '@') :
    isErr (parseAtSplit ns0 nm0 sel) = true := by
  have hlen : (splitOnChar '@' nm0.data).length = nm0.data.count '@' + 1 :=
    splitOnAux_length '@' nm0.data []
  unfold parseAtSplit
  split
  · rename_i heq
    have := congrArg List.length heq
    rw [List.length_map, hlen] at this
    simp at this
    omega
  · rename_i heq
    have := congrArg List.length heq
    rw [List.length_map, hlen] at this
    simp at this
    omega
  · rfl

/-- An invalid non-empty namespace part makes the whole unit fail,
whatever the `@` split of the name part yields. -/
theorem parseAtSplit_isErr_ns_bad (ns0 nm0 sel : String)
    (h1 : validName ns0 = false) (h2 : ns0 ≠ "") :
    isErr (parseAtSplit ns0 nm0 sel) = true := by
  unfold parseAtSplit
  split
  · exact validateUnits_isErr_left _ _ _ h1 h2
  · exact validateUnits_isErr_left _ _ _ h1 h2
  · rfl

/-- Invalid components found by the grammar abort the `@`-split stage. -/
theorem parseAtSplit_isErr_of_atComponents_bad (ns0 nm0 sel : String)
    (h : (match atComponents ns0 nm0 with
          | none => false
          | some (ns, nm, itf) => badComp ns || badComp nm || badComp itf) = true) :
    isErr (parseAtSplit ns0 nm0 sel) = true := by
  unfold atComponents at h
  unfold parseAtSplit
  cases hm : (splitOnChar '@' nm0.data).map List.asString with
  | nil =>
    simp only [hm] at h ⊢
    rfl
  | cons x0 xs =>
    cases xs with
    | nil =>
      simp only [hm] at h ⊢
      rw [Bool.or_eq_true, Bool.or_eq_true] at h
      rcases h with (hns | hnm) | hitf
      · rw [badComp, decide_eq_true_eq] at hns
        exact validateUnits_isErr_left _ _ _ hns.1 hns.2
      · rw [badComp, decide_eq_true_eq] at hnm
        exact validateUnits_isErr_mid _ _ _ hnm.1 hnm.2
      · rw [badComp, decide_eq_true_eq] at hitf
        exact absurd rfl hitf.2
    | cons y0 ys =>
      cases ys with
      | nil =>
        simp only [hm] at h ⊢
        rw [Bool.or_eq_true, Bool.or_eq_true] at h
        rcases h with (hns | hnm) | hitf
        · rw [badComp, decide_eq_true_eq] at hns
          exact validateUnits_isErr_left _ _ _ hns.1 hns.2
        · rw [badComp, decide_eq_true_eq] at hnm
          exact validateUnits_isErr_mid _ _ _ hnm.1 hnm.2
        · rw [badComp, decide_eq_true_eq] at hitf
          exact validateUnits_isErr_right _ _ _ hitf.1 hitf.2
      | cons z0 zs =>
        simp only [hm] at h ⊢
        rfl

/-- Recover the character-list split from its stringified image. -/
theorem map_asString_inv (l : List (List Char)) (L : List String)
    (h : l.map List.asString = L) : l = L.map String.data := by
  subst h
  rw [List.map_map]
  exact (List.map_id'' (fun x => rfl) l).symm

/-- A unit with two or more '/' runes overflows the '/' split. -/
theorem parseElement_isErr_many_slash (u d : String) (h : 2 ≤ u.data.count '/') :
    isErr (parsePodNetworkSelectionElement u d) = true := by
  have hlen : (splitOnChar '/' u.data).length = u.data.count '/' + 1 :=
    splitOnAux_length '/' u.data []
  unfold parsePodNetworkSelectionElement
  split
  · rename_i heq
    have := congrArg List.length heq
    rw [List.length_map, hlen] at this
    simp at this
    omega
  · rename_i heq
    have := congrArg List.length heq
    rw [List.length_map, hlen] at this
    simp at this
    omega
  · rfl

/-- A unit with two or more '@' runes fails: either the '@' split of the
name part overflows, or an '@' sits in the namespace part, which then
violates the label pattern. -/
theorem parseElement_isErr_many_at (u d : String) (h : 2 ≤ u.data.count '@') :
    isErr (parsePodNetworkSelectionElement u d) = true := by
  have hsum : ((splitOnChar '/' u.data).map (List.count '@')).sum
      = u.data.count '@' + List.count '@' [] :=
    splitOnAux_count_sum '/' '@' (by decide) u.data []
  unfold parsePodNetworkSelectionElement
  split
  · rename_i nm0 heq
    have hl : splitOnChar '/' u.data = [nm0.data] := by
      have h2 := map_asString_inv _ _ heq
      simpa using h2
    rw [hl] at hsum
    simp at hsum
    exact parseAtSplit_isErr_many_at _ _ _ (by omega)
  · rename_i ns0 nm0 heq
    have hl : splitOnChar '/' u.data = [ns0.data, nm0.data] := by
      have h2 := map_asString_inv _ _ heq
      simpa using h2
    rw [hl] at hsum
    simp at hsum
    by_cases h2 : 2 ≤ nm0.data.count '@'
    · exact parseAtSplit_isErr_many_at _ _ _ h2
    · have h1 : 1 ≤ ns0.data.count '@' := by omega
      have hmem : '@' ∈ ns0.data := List.one_le_count_iff.mp h1
      have hval : validName ns0 = false :=
        validName_false_of_bad_char ns0 '@' hmem (by decide) (by decide)
      have hne : ns0 ≠ "" := string_ne_empty_of_mem ns0 '@' hmem
      exact parseAtSplit_isErr_ns_bad _ _ _ hval hne
  · rfl

/-- A unit one of whose grammar components is non-empty yet violates the
label pattern fails. -/
theorem parseElement_isErr_invalid (u d : String)
    (h : hasInvalidComponent u d = true) :
    isErr (parsePodNetworkSelectionElement u d) = true := by
  unfold hasInvalidComponent unitComponents at h
  unfold parsePodNetworkSelectionElement
  cases hm : (splitOnChar '/' u.data).map List.asString with
  | nil =>
    simp only [hm] at h
    cases h
  | cons x0 xs =>
    cases xs with
    | nil =>
      simp only [hm] at h ⊢
      exact parseAtSplit_isErr_of_atComponents_bad d x0 u h
    | cons y0 ys =>
      cases ys with
      | nil =>
        simp only [hm] at h ⊢
        exact parseAtSplit_isErr_of_atComponents_bad x0 y0 u h
      | cons z0 zs =>
        simp only [hm] at h
        cases h

/-- A failing unit anywhere in the list makes the whole comma-separated
loop fail (earlier units either succeed and the loop continues, or fail
and the loop aborts even sooner). -/
theorem parseCommaUnits_isErr_of_mem (d : String) :
    ∀ (units : List String) (u : String), u ∈ units →
      isErr (parsePodNetworkSelectionElement u d) = true →
      isErr (parseCommaUnits d units) = true := by
  intro units
  induction units with
  | nil =>
    intro u hu
    cases hu
  | cons v rest ih =>
    intro u hu herr
    unfold parseCommaUnits
    cases hp : parsePodNetworkSelectionElement v d with
    | error e =>
      simp only [hp]
      rfl
    | ok el =>
      simp only [hp]
      rcases List.mem_cons.mp hu with rfl | hurest
      · rw [hp] at herr
        cases herr
      · have hrec := ih u hurest herr
        cases hc : parseCommaUnits d rest with
        | error e =>
          simp only [hc]
          rfl
        | ok l =>
          rw [hc] at hrec
          cases hrec

/-- C5: on the comma-separated parse path (the JSON decoder failed), any
trimmed unit containing more than one '/' or more than one '@', or whose
grammar components include a non-empty one violating the label pattern
`[a-z0-9]([-a-z0-9]*[a-z0-9])?`, makes the entire parseSelections call
return an error — no partial list is produced. -/
theorem C5_comma_path_bad_unit_errors
    (decode : String → Option (List NetworkSelectionElement))
    (raw d u : String)
    (hjson : decode raw = none)
    (hu : u ∈ commaUnits raw)
    (hbad : 2 ≤ u.data.count '/' ∨ 2 ≤ u.data.count '@'
      ∨ hasInvalidComponent u d = true) :
    isErr (parsePodNetworkSelections decode raw d) = true := by
  have herr : isErr (parsePodNetworkSelectionElement u d) = true := by
    rcases hbad with h | h | h
    · exact parseElement_isErr_many_slash u d h
    · exact parseElement_isErr_many_at u d h
    · exact parseElement_isErr_invalid u d h
  unfold parsePodNetworkSelections
  by_cases hraw : raw.data = []
  · rw [if_pos hraw]
    rfl
  · rw [if_neg hraw, hjson]
    have hcp := parseCommaUnits_isErr_of_mem d (commaUnits raw) u hu herr
    cases hc : parseCommaUnits d (commaUnits raw) with
    | error e =>
      simp only [hc]
      rfl
    | ok l =>
      rw [hc] at hcp
      cases hcp

/-- Witness for C5 at the spec's own example "a/b/c". -/
theorem C5_witness :
    isErr (parsePodNetworkSelections (fun _ => none) "a/b/c" "default") = true :=
  C5_comma_path_bad_unit_errors (fun _ => none) "a/b/c" "default" "a/b/c"
    rfl (by decide) (.inl (by decide))

end NadCtrl
